import Mathlib

/-!
Shallow embedding of the reconciliation core of `crikke/jiralert`
(`src/pkg/notify/notify.go`), together with theorems settling the frozen
claims about it.

Modelling conventions:
* Go `map[string]string` values (`alertmanager.KV`) are modelled as
  association lists `KV := List (String × String)`; lookups follow Go's
  zero-value semantics (a missing key reads as `""`).  Well-formed Go maps
  have no duplicate keys; theorems that need this carry a `NodupKeys`
  hypothesis.  Go map iteration order is unspecified, so wherever the source
  iterates over a map we fix the canonical insertion (first-occurrence)
  order; all claim statements are insensitive to this choice.
* The SHA-512 digest used by the hashed identity label comes from Go's
  standard library (`crypto/sha512`), which is outside this repository; it
  is modelled as an explicit function parameter `sha512hex`, and every
  theorem about the hashed mode is proved for every such function.
* Go's `fmt %q` quoting of label values is modelled by `goQuote`, covering
  the escapes relevant to label strings; no claim depends on the exact
  escape table.
* The Jira client (`jiraIssueService`) is an interface in the source; it is
  modelled as a record of response functions.  Each embedded operation also
  returns the list of client calls it performs, so that "zero transition
  calls" style claims are statements about an explicit call trace.
-/

namespace Jiralert

/-- Go `map[string]string` (`alertmanager.KV`), as an association list. -/
abbrev KV := List (String × String)

/-- Go map lookup `m[k]` returning `some v` when present (first match). -/
def kvGet : KV → String → Option String
  | [], _ => none
  | p :: t, k => if p.1 = k then some p.2 else kvGet t k

/-- Go map read `m[k]` with the string zero value `""` for a missing key. -/
def kvGetD (kv : KV) (k : String) : String := (kvGet kv k).getD ""

/-- Well-formedness of a Go map: no duplicate keys. -/
abbrev NodupKeys (kv : KV) : Prop := (kv.map Prod.fst).Nodup

/-- `strings.Replace(s, " ", "", -1)`: remove every space. -/
def stripSpaces (s : String) : String := String.mk (s.toList.filter (fun c => c ≠ ' '))

/-- One character of Go's `%q` escaping (the cases relevant to labels). -/
def goQuoteChar (c : Char) : String :=
  if c = '"' then "\\\""
  else if c = '\\' then "\\\\"
  else if c = '\n' then "\\n"
  else if c = '\t' then "\\t"
  else if c = '\r' then "\\r"
  else String.singleton c

/-- Go `fmt.Sprintf("%q", s)`: double-quoted, escaped string. -/
def goQuote (s : String) : String :=
  "\"" ++ String.join (s.toList.map goQuoteChar) ++ "\""

/-- Modelled from the spec: `alertmanager.KV.SortedPairs` (the
`pkg/alertmanager` package is not under `src/`).  Per the spec, the pairs
are sorted lexicographically by label name; like the upstream
implementation, the keys are sorted and each value is then read from the
map. -/
def SortedPairs (kv : KV) : List (String × String) :=
  ((kv.map Prod.fst).insertionSort (· ≤ ·)).map (fun k => (k, kvGetD kv k))

/-- The `name="value",` fragment written for one sorted pair
(`fmt.Sprintf("%s=%q,", p.Name, p.Value)`). -/
def pairFragment (p : String × String) : String :=
  p.1 ++ "=" ++ goQuote p.2 ++ ","

/-- `toGroupTicketLabel` (notify.go:399-420).  `sha512hex` stands for the
hex digest of Go's `crypto/sha512` applied to the written bytes; the legacy
branch builds `ALERT{...}` from the sorted pairs, truncates the final byte
(the trailing comma — or the opening brace when there are no pairs; that
byte is always ASCII, so `bytes.Buffer.Truncate(len-1)` drops exactly the
last character), closes the brace and strips all spaces. -/
def toGroupTicketLabel (sha512hex : String → String) (labels : KV) (hashJiraLabel : Bool) : String :=
  if hashJiraLabel then
    "JIRALERT\x7b" ++ sha512hex (String.join ((SortedPairs labels).map pairFragment)) ++ "\x7d"
  else
    let buf := "ALERT\x7b" ++ String.join ((SortedPairs labels).map pairFragment)
    let buf := String.mk buf.toList.dropLast
    stripSpaces (buf ++ "\x7d")

/-! ## Alert data model (`pkg/alertmanager`, modelled from the spec)

The `alertmanager` package is not under `src/`; per the spec, a Notification
carries a group key, group labels, an overall status, common labels and
annotations, an external URL, the alert list, a receiver name and a schema
version, and an Alert carries a status, labels and annotations. -/

/-- Modelled from the spec: `alertmanager.AlertFiring`. -/
def AlertFiring : String := "firing"

/-- Modelled from the spec: `alertmanager.AlertResolved`. -/
def AlertResolved : String := "resolved"

/-- Modelled from the spec: `alertmanager.Alert`. -/
structure Alert where
  status : String
  labels : KV
  annotations : KV
deriving DecidableEq, Repr

/-- Modelled from the spec: `alertmanager.Data` (one Notification). -/
structure Data where
  groupKey : String
  groupLabels : KV
  status : String
  commonLabels : KV
  commonAnnotations : KV
  externalURL : String
  alerts : List Alert
  receiver : String
  version : String
deriving DecidableEq, Repr

/-- Modelled from the spec: `alertmanager.Alerts.Firing()` — the alerts whose
status is `firing`. -/
def firingAlerts (l : List Alert) : List Alert :=
  l.filter (fun a => a.status == AlertFiring)

/-! ## Grouping transforms (notify.go:63-158) -/

/-- `toAlert` (notify.go:64-84): one Notification per alert, with that
alert's own labels/annotations promoted to common. -/
def toAlert (d : Data) : List Data :=
  d.alerts.map (fun a =>
    { groupKey := d.groupKey
      groupLabels := d.groupLabels
      status := a.status
      commonLabels := a.labels
      commonAnnotations := a.annotations
      externalURL := d.externalURL
      alerts := [a]
      receiver := d.receiver
      version := d.version })

/-- The `alertname` label of an alert (notify.go:93). -/
def alertName (a : Alert) : Option String := kvGet a.labels "alertname"

/-- The fresh per-rule Notification (notify.go:101-109). -/
def initRuleData (d : Data) : Data :=
  { groupKey := d.groupKey
    groupLabels := d.groupLabels
    status := AlertResolved
    commonLabels := []
    commonAnnotations := []
    externalURL := d.externalURL
    alerts := []
    receiver := d.receiver
    version := d.version }

/-- Adding one alert to its rule's Notification (notify.go:112-116). -/
def addAlertToRule (dt : Data) (a : Alert) : Data :=
  { dt with
    alerts := dt.alerts ++ [a]
    status := if a.status == AlertFiring then AlertFiring else dt.status }

/-- Association-list lookup for the `alertsData` map. -/
def alookup : List (String × Data) → String → Option Data
  | [], _ => none
  | p :: t, k => if p.1 = k then some p.2 else alookup t k

/-- Go map assignment `alertsData[name] = data`, with canonical
first-insertion order for the entries. -/
def assocSet : List (String × Data) → String → Data → List (String × Data)
  | [], k, v => [(k, v)]
  | p :: t, k, v => if p.1 = k then (k, v) :: t else p :: assocSet t k v

/-- One step of the first loop of `toAlertRule` (notify.go:91-119): alerts
without an `alertname` label are skipped, otherwise the alert is appended to
its rule's Notification and the status is raised to firing if it fires. -/
def upsertRule (d : Data) (acc : List (String × Data)) (a : Alert) : List (String × Data) :=
  match alertName a with
  | none => acc
  | some name => assocSet acc name (addAlertToRule ((alookup acc name).getD (initRuleData d)) a)

/-- One subsequent alert's shrinking of the common label/annotation sets
(notify.go:131-145).  Go reads a missing key as `""`, so a key survives the
comparison against alert `a` exactly when `a`'s value-or-`""` for it equals
the recorded value; once both sets are empty the loop `break`s, which is the
identity from then on. -/
def shrinkStep (a : Alert) (s : KV × KV) : KV × KV :=
  if s.1.isEmpty && s.2.isEmpty then s
  else
    (s.1.filter (fun p => kvGetD a.labels p.1 == p.2),
     s.2.filter (fun p => kvGetD a.annotations p.1 == p.2))

/-- The second loop body of `toAlertRule` (notify.go:126-152): starting from
the first member alert's label/annotation sets, shrink them against every
subsequent member, then copy the survivors into the Notification's common
labels/annotations.  In Go the shrinking happens by `delete` on the maps
aliased from the first member alert, so the output's first member alert
carries the shrunk maps as well (`toAlertRuleRef` models the same effect on
the original batch's heap). -/
def finishRule (dt : Data) : Data :=
  match dt.alerts with
  | [] => dt
  | a0 :: rest =>
    let s := rest.foldl (fun s a => shrinkStep a s) (a0.labels, a0.annotations)
    { dt with
      commonLabels := s.1
      commonAnnotations := s.2
      alerts := { a0 with labels := s.1, annotations := s.2 } :: rest }

/-- `toAlertRule` (notify.go:87-158), value-level: partition the alerts by
`alertname`, then compute each partition's status and common
labels/annotations.  Go's map iteration order for the output slice is
unspecified; the canonical first-occurrence order is used.  (This value
semantics agrees with Go's on every output; the in-place `delete` effect on
the first member alert's maps is modelled separately by `toAlertRuleRef`.) -/
def toAlertRule (d : Data) : List Data :=
  (d.alerts.foldl (upsertRule d) []).map (fun p => finishRule p.2)

/-! ### Derived closed-form characterization of `toAlertRule`

The following definitions are not part of the embedding; they are the
closed form that `toAlertRule` is proved to equal, used to state the
grouping claims. -/

/-- One step of collecting distinct `alertname` values in first-occurrence
order. -/
def nameStep (ks : List String) (a : Alert) : List String :=
  match alertName a with
  | none => ks
  | some n => if n ∈ ks then ks else ks ++ [n]

/-- The distinct `alertname` values among alerts carrying that label, in
first-occurrence order. -/
def ruleNames (l : List Alert) : List String := l.foldl nameStep []

/-- The member alerts of the partition for rule `n`, in batch order. -/
def ruleMembers (d : Data) (n : String) : List Alert :=
  d.alerts.filter (fun a => alertName a == some n)

/-- The common key/value pairs across a partition: the first member's
entries on which every member's value-or-`""` agrees. -/
def commonAcross (proj : Alert → KV) : List Alert → KV
  | [] => []
  | a0 :: rest => (proj a0).filter (fun p => rest.all (fun a => kvGetD (proj a) p.1 == p.2))

/-- The closed form of the partition Notification `toAlertRule` builds for
rule `n`. -/
def ruleGroupModel (d : Data) (n : String) : Data :=
  { groupKey := d.groupKey
    groupLabels := d.groupLabels
    status :=
      if (ruleMembers d n).any (fun a => a.status == AlertFiring) then AlertFiring
      else AlertResolved
    commonLabels := commonAcross (fun a => a.labels) (ruleMembers d n)
    commonAnnotations := commonAcross (fun a => a.annotations) (ruleMembers d n)
    externalURL := d.externalURL
    alerts :=
      match ruleMembers d n with
      | [] => []
      | a0 :: rest =>
        { a0 with
          labels := commonAcross (fun a => a.labels) (a0 :: rest)
          annotations := commonAcross (fun a => a.annotations) (a0 :: rest) } :: rest
    receiver := d.receiver
    version := d.version }

/-! ## Reference-level `toAlertRule` (Go map aliasing)

In Go, `map[string]string` is a reference type: copying an `Alert` struct
copies the map header, so `commonLabels = data.Alerts[0].Labels`
(notify.go:128) aliases the map owned by the first member alert of the
original batch, and `delete(commonLabels, ln)` (notify.go:137) mutates that
map in place.  To state frame-effect claims, label/annotation maps live in
an explicit heap and alerts hold references into it. -/

/-- A heap of Go maps, addressed by allocation index. -/
abbrev Heap := List KV

/-- Dereference a map pointer. -/
def hGet (h : Heap) (i : Nat) : KV := h.getD i []

/-- Overwrite the map behind a pointer. -/
def hSet (h : Heap) (i : Nat) (kv : KV) : Heap := h.set i kv

/-- An alert holding references to its label and annotation maps. -/
structure AlertRef where
  status : String
  labelsRef : Nat
  annotationsRef : Nat
deriving DecidableEq, Repr

/-- Association-list lookup for the reference-level `alertsData` map. -/
def alookupRef : List (String × (String × List AlertRef)) → String → Option (String × List AlertRef)
  | [], _ => none
  | p :: t, k => if p.1 = k then some p.2 else alookupRef t k

/-- Go map assignment for the reference-level `alertsData` map. -/
def assocSetRef : List (String × (String × List AlertRef)) → String → (String × List AlertRef) →
    List (String × (String × List AlertRef))
  | [], k, v => [(k, v)]
  | p :: t, k, v => if p.1 = k then (k, v) :: t else p :: assocSetRef t k v

/-- First loop of `toAlertRule` on references (notify.go:91-119): group the
alert references by `alertname` (read through the heap, which this loop
never writes), tracking each group's status. -/
def groupRefFold (h : Heap) (acc : List (String × (String × List AlertRef))) (a : AlertRef) :
    List (String × (String × List AlertRef)) :=
  match kvGet (hGet h a.labelsRef) "alertname" with
  | none => acc
  | some name =>
    let cur := (alookupRef acc name).getD (AlertResolved, [])
    let st := if a.status == AlertFiring then AlertFiring else cur.1
    assocSetRef acc name (st, cur.2 ++ [a])

/-- One subsequent alert's pass of the `delete` loops (notify.go:131-145),
performed in place on the first member alert's maps: the label map behind
`clRef` and then the annotation map behind `caRef` are overwritten with
their agreeing entries, reading the comparison values through the current
heap.  When both sets are already empty the source `break`s, leaving the
heap untouched. -/
def shrinkRefStep (clRef caRef : Nat) (h : Heap) (a : AlertRef) : Heap :=
  if (hGet h clRef).isEmpty && (hGet h caRef).isEmpty then h
  else
    let h1 := hSet h clRef ((hGet h clRef).filter (fun p => kvGetD (hGet h a.labelsRef) p.1 == p.2))
    hSet h1 caRef ((hGet h1 caRef).filter (fun p => kvGetD (hGet h1 a.annotationsRef) p.1 == p.2))

/-- Second loop of `toAlertRule` on references (notify.go:125-155): for each
group, shrink the first member's maps in place against the rest, then copy
the survivors out as the group's common labels/annotations.  Returns the
groups (name, common labels, common annotations) and the final heap. -/
def toAlertRuleRef (h : Heap) (alerts : List AlertRef) : List (String × KV × KV) × Heap :=
  let groups := alerts.foldl (groupRefFold h) []
  groups.foldl
    (fun acc g =>
      match g.2.2 with
      | [] => acc
      | a0 :: rest =>
        let h2 := rest.foldl (shrinkRefStep a0.labelsRef a0.annotationsRef) acc.2
        (acc.1 ++ [(g.1, hGet h2 a0.labelsRef, hGet h2 a0.annotationsRef)], h2))
    ([], h)

/-! ## Ticketing client model (`jiraIssueService`, notify.go:38-45)

The go-jira client is an external collaborator consumed through an
interface; it is modelled as a record of response functions.  Each embedded
receiver operation additionally returns the list of client calls it makes,
so call-count claims are statements about an explicit trace. -/

/-- One call to the ticketing client. -/
inductive Call where
  | search (jql : String)
  | getTransitions (id : String)
  | create
  | update (key : String)
  | doTransition (id transitionID : String)
deriving DecidableEq, Repr

/-- Errors produced by the receiver, as structured values (Go returns them
as formatted strings). -/
inductive JErr where
  /-- `errors.Wrap(err, ctx)` around a template-rendering error. -/
  | render (ctx msg : String)
  /-- An unwrapped template error (the custom-fields loop, notify.go:319). -/
  | raw (msg : String)
  /-- "JIRA request %s returned status %s, body %q" (notify.go:531). -/
  | status (url status body : String)
  /-- `errors.Wrapf(err, "JIRA request %s failed", api)` (notify.go:533). -/
  | wrapped (api : String) (msg : Option String)
  /-- "JIRA state %q does not exist or no transition possible for %s"
  (notify.go:558); the first argument is the state name the message quotes. -/
  | stateNotExist (state key : String)
deriving DecidableEq, Repr

/-- The parts of a `jira.Response` the source reads (status code, status
text, body, request URL). -/
structure Resp where
  statusCode : Nat
  status : String
  body : String
  url : String
deriving DecidableEq, Repr

/-- `jira.Transition`: id and display name. -/
structure Transition where
  id : String
  name : String
deriving DecidableEq, Repr

/-- The fields of a found `jira.Issue` the source reads: key, summary,
description, status category key, resolution name (nil when unresolved) and
resolution date (`none` models Go's zero `time.Time`; times are integers). -/
structure Issue where
  key : String
  summary : String
  description : String
  statusCategoryKey : String
  resolution : Option String
  resolutiondate : Option Int
deriving DecidableEq, Repr

/-- A custom-field value as seen by `deepCopyWithTemplate`
(notify.go:326-375) through reflection: nil, string, array/slice, map, or
any other scalar (number, bool, ...) which passes through unchanged. -/
inductive GoVal where
  | vnull
  | vstr (s : String)
  | varr (elems : List GoVal)
  | vmap (entries : List (GoVal × GoVal))
  | vother

/-- The issue constructed on the create path (notify.go:279-321). -/
structure NewIssue where
  project : String
  issueType : String
  summary : String
  description : String
  labels : List String
  priority : Option String
  components : List String
  unknowns : List (String × GoVal)

/-- The partial-update issue built by `updateSummary`/`updateDescription`
(unset fields keep Go's zero value `""`). -/
structure UpdateIssue where
  key : String
  summary : String
  description : String
deriving DecidableEq, Repr

/-- `jira.SearchOptions` as used by `search` (notify.go:424-427). -/
structure SearchOptions where
  fields : List String
  maxResults : Nat
deriving DecidableEq, Repr

/-- The ticketing client (`jiraIssueService`).  Each method returns the
go-jira result triple; errors are opaque strings. -/
structure Client where
  search : String → SearchOptions → List Issue × Option Resp × Option String
  getTransitions : String → List Transition × Option Resp × Option String
  create : NewIssue → Option Issue × Option Resp × Option String
  updateWithOptions : UpdateIssue → Option Issue × Option Resp × Option String
  doTransition : String → String → Option Resp × Option String

/-! ## Receiver configuration (`config.ReceiverConfig`, modelled from the spec)

The `config` package is not under `src/`; the fields below are the ones
`notify.go` reads.  `reopenDuration` models the value behind the
`*ReopenDuration` pointer (nanoseconds, an integer); `autoResolve` models
the nullable `AutoResolve` policy. -/

/-- Modelled from the spec: the auto-resolve policy (`config.AutoResolve`). -/
structure AutoResolve where
  state : String
deriving DecidableEq, Repr

/-- Modelled from the spec: `config.ReceiverConfig`, restricted to the
fields the reconciliation core reads. -/
structure ReceiverConfig where
  project : String
  issueType : String
  summary : String
  description : String
  priority : String
  components : List String
  fields : List (String × GoVal)
  addCommonLabels : Bool
  addGroupLabels : Bool
  issueIdentifierLabel : String
  groupIssueBy : String
  wontFixResolution : String
  reopenState : String
  reopenDuration : Int
  autoResolve : Option AutoResolve

/-- Modelled from the spec: the `config.AlertGroup` grouping-mode constant
(its concrete string is not under `src/`; only distinctness of the three
mode constants matters). -/
def AlertGroup : String := "by-group"

/-- Modelled from the spec: the `config.AlertRule` grouping-mode constant. -/
def AlertRule : String := "by-rule"

/-- Modelled from the spec: the `config.Alert` grouping-mode constant. -/
def AlertSingle : String := "by-alert"

/-- The `Receiver` (notify.go:48-56): configuration, template renderer
(a black-box `render(template, data)` capability), client, and the injected
clock (`timeNow`, frozen to a value per invocation). -/
structure Receiver where
  conf : ReceiverConfig
  tmpl : String → Data → Except String String
  client : Client
  now : Int

/-! ## Error translation and client-calling helpers (notify.go:422-560) -/

/-- `handleJiraErrResponse` (notify.go:520-534): a non-2xx response is
retryable exactly for status 500 or 503; everything else (other statuses,
or no response at all) is non-retryable. -/
def handleJiraErrResponse (api : String) (resp : Option Resp) (err : Option String) : Bool × JErr :=
  match resp with
  | some rp =>
    if rp.statusCode / 100 ≠ 2 then
      (rp.statusCode == 500 || rp.statusCode == 503, .status rp.url rp.status rp.body)
    else (false, .wrapped api err)
  | none => (false, .wrapped api err)

/-- The JQL query built by `search` (notify.go:423). -/
def searchQuery (project issueLabel : String) : String :=
  "project=\"" ++ project ++ "\" and labels=" ++ goQuote issueLabel ++ " order by resolutiondate desc"

/-- The fixed search options (notify.go:424-427). -/
def theSearchOptions : SearchOptions :=
  { fields := ["summary", "status", "resolution", "resolutiondate"], maxResults := 2 }

/-- `search` (notify.go:422-448): run the query; on error translate it; on
no results return none; otherwise pick the first (most recently resolved)
issue, tolerating and merely warning on multiple matches. -/
def search (r : Receiver) (project issueLabel : String) : (Option Issue × Bool × Option JErr) × List Call :=
  let query := searchQuery project issueLabel
  let res := r.client.search query theSearchOptions
  let out : Option Issue × Bool × Option JErr :=
    match res.2.2 with
    | some e =>
      let h := handleJiraErrResponse "Issue.Search" res.2.1 (some e)
      (none, h.1, some h.2)
    | none =>
      match res.1 with
      | [] => (none, false, none)
      | issue :: _ => (some issue, false, none)
  (out, [Call.search query])

/-- `findIssueToReuse` (notify.go:450-468): search, then discard the found
issue as too stale when its resolution time is set, adding the reopen
duration lands strictly before "now", and the reopen duration is nonzero. -/
def findIssueToReuse (r : Receiver) (project issueGroupLabel : String) :
    (Option Issue × Bool × Option JErr) × List Call :=
  let s := search r project issueGroupLabel
  let out : Option Issue × Bool × Option JErr :=
    match s.1 with
    | (_, retry, some e) => (none, retry, some e)
    | (none, _, none) => (none, false, none)
    | (some issue, _, none) =>
      match issue.resolutiondate with
      | some rt =>
        if rt + r.conf.reopenDuration < r.now ∧ r.conf.reopenDuration ≠ 0 then (none, false, none)
        else (some issue, false, none)
      | none => (some issue, false, none)
  (out, s.2)

/-- `doTransition` (notify.go:540-560): list the ticket's transitions, find
the one whose display name equals the requested state, invoke it; when none
matches, fail without invoking anything — note the error message quotes the
configured reopen state, not the requested state. -/
def doTransition (r : Receiver) (issueKey transitionState : String) : (Bool × Option JErr) × List Call :=
  let res := r.client.getTransitions issueKey
  match res.2.2 with
  | some e =>
    let h := handleJiraErrResponse "Issue.GetTransitions" res.2.1 (some e)
    ((h.1, some h.2), [Call.getTransitions issueKey])
  | none =>
    match res.1.find? (fun t => t.name == transitionState) with
    | some t =>
      let res2 := r.client.doTransition issueKey t.id
      match res2.2 with
      | some e =>
        let h := handleJiraErrResponse "Issue.DoTransition" res2.1 (some e)
        ((h.1, some h.2), [Call.getTransitions issueKey, Call.doTransition issueKey t.id])
      | none => ((false, none), [Call.getTransitions issueKey, Call.doTransition issueKey t.id])
    | none =>
      ((false, some (.stateNotExist r.conf.reopenState issueKey)), [Call.getTransitions issueKey])

/-- `reopen` (notify.go:504-506). -/
def reopen (r : Receiver) (issueKey : String) : (Bool × Option JErr) × List Call :=
  doTransition r issueKey r.conf.reopenState

/-- The state read by `resolveIssue` (`r.conf.AutoResolve.State`); the
`none` branch is unreachable from `notify`, which only resolves when an
auto-resolve policy is configured (Go would nil-panic otherwise). -/
def autoResolveState (conf : ReceiverConfig) : String :=
  match conf.autoResolve with
  | some a => a.state
  | none => ""

/-- `resolveIssue` (notify.go:536-538). -/
def resolveIssue (r : Receiver) (issueKey : String) : (Bool × Option JErr) × List Call :=
  doTransition r issueKey (autoResolveState r.conf)

/-- `updateSummary` (notify.go:470-485): partial update carrying only the
new summary. -/
def updateSummary (r : Receiver) (issueKey summary : String) : (Bool × Option JErr) × List Call :=
  let res := r.client.updateWithOptions { key := issueKey, summary := summary, description := "" }
  let out : Bool × Option JErr :=
    match res.2.2 with
    | some e =>
      let h := handleJiraErrResponse "Issue.UpdateWithOptions" res.2.1 (some e)
      (h.1, some h.2)
    | none => (false, none)
  (out, [Call.update issueKey])

/-- `updateDescription` (notify.go:487-502): partial update carrying only
the new description. -/
def updateDescription (r : Receiver) (issueKey description : String) : (Bool × Option JErr) × List Call :=
  let res := r.client.updateWithOptions { key := issueKey, summary := "", description := description }
  let out : Bool × Option JErr :=
    match res.2.2 with
    | some e =>
      let h := handleJiraErrResponse "Issue.UpdateWithOptions" res.2.1 (some e)
      (h.1, some h.2)
    | none => (false, none)
  (out, [Call.update issueKey])

/-- `create` (notify.go:508-518). -/
def create (r : Receiver) (issue : NewIssue) : (Bool × Option JErr) × List Call :=
  let res := r.client.create issue
  let out : Bool × Option JErr :=
    match res.2.2 with
    | some e =>
      let h := handleJiraErrResponse "Issue.Create" res.2.1 (some e)
      (h.1, some h.2)
    | none => (false, none)
  (out, [Call.create])

/-! ## Custom-field copying (notify.go:326-375) -/

mutual

/-- `deepCopyWithTemplate` (notify.go:329-375): strings are rendered as
templates, arrays/slices element-wise, maps into string-keyed maps with
keys rendered and non-string keys dropped, everything else passed through. -/
def deepCopyWithTemplate (render : String → Except String String) : GoVal → Except String GoVal
  | .vnull => .ok .vnull
  | .vstr s =>
    match render s with
    | .error e => .error e
    | .ok s2 => .ok (.vstr s2)
  | .varr xs =>
    match deepCopyList render xs with
    | .error e => .error e
    | .ok ys => .ok (.varr ys)
  | .vmap es =>
    match deepCopyMap render es with
    | .error e => .error e
    | .ok fs => .ok (.vmap fs)
  | .vother => .ok .vother

/-- Element-wise copy of an array/slice value (notify.go:340-350). -/
def deepCopyList (render : String → Except String String) : List GoVal → Except String (List GoVal)
  | [] => .ok []
  | x :: xs =>
    match deepCopyWithTemplate render x with
    | .error e => .error e
    | .ok y =>
      match deepCopyList render xs with
      | .error e => .error e
      | .ok ys => .ok (y :: ys)

/-- Entry-wise copy of a map value (notify.go:352-371): non-string keys are
skipped, string keys are themselves rendered. -/
def deepCopyMap (render : String → Except String String) :
    List (GoVal × GoVal) → Except String (List (GoVal × GoVal))
  | [] => .ok []
  | (k, v) :: rest =>
    match k with
    | .vstr ks =>
      match render ks with
      | .error e => .error e
      | .ok ks2 =>
        match deepCopyWithTemplate render v with
        | .error e => .error e
        | .ok v2 =>
          match deepCopyMap render rest with
          | .error e => .error e
          | .ok rest2 => .ok ((.vstr ks2, v2) :: rest2)
    | _ => deepCopyMap render rest

end

/-- The custom-fields loop of `notify` (notify.go:316-321). -/
def renderUnknowns (render : String → Except String String) :
    List (String × GoVal) → Except String (List (String × GoVal))
  | [] => .ok []
  | (key, v) :: rest =>
    match deepCopyWithTemplate render v with
    | .error e => .error e
    | .ok v2 =>
      match renderUnknowns render rest with
      | .error e => .error e
      | .ok rest2 => .ok ((key, v2) :: rest2)

/-- The components loop of `notify` (notify.go:298-308). -/
def renderComponents (render : String → Except String String) :
    List String → Except String (List String)
  | [] => .ok []
  | c :: cs =>
    match render c with
    | .error e => .error e
    | .ok c2 =>
      match renderComponents render cs with
      | .error e => .error e
      | .ok cs2 => .ok (c2 :: cs2)

/-! ## The reconciliation engine (notify.go:160-324) -/

/-- The `name="value"` ticket label written for one label pair
(`fmt.Sprintf("%s=%q", ...)`, notify.go:194 and notify.go:312). -/
def labelPair (p : String × String) : String := p.1 ++ "=" ++ goQuote p.2

section NotifyModel

variable (sha512hex : String → String)

/-- `toIssueIdentifierLabel` (notify.go:377-390): with no identity-label
template configured, fall back to `toGroupTicketLabel`; otherwise render
the template against the Notification and strip all spaces. -/
def toIssueIdentifierLabel (r : Receiver) (data : Data) (hashJiraLabel : Bool) :
    Except String String :=
  if r.conf.issueIdentifierLabel = "" then
    .ok (toGroupTicketLabel sha512hex data.groupLabels hashJiraLabel)
  else
    match r.tmpl r.conf.issueIdentifierLabel data with
    | .error e => .error e
    | .ok label => .ok (stripSpaces label)

/-- The found-ticket half of `notify` (notify.go:221-264): refresh summary
and description when changed; with no firing alerts, auto-resolve when so
configured, else stop; with a still-open ticket, stop; with a ticket
resolved as the configured won't-fix resolution, stop; otherwise reopen. -/
def notifyExisting (r : Receiver) (data : Data) (issue : Issue)
    (issueSummary issueDesc : String) : (Bool × Option JErr) × List Call :=
  let s1 : (Bool × Option JErr) × List Call :=
    if issue.summary ≠ issueSummary then updateSummary r issue.key issueSummary
    else ((false, none), [])
  match s1 with
  | ((retry, some e), tr) => ((retry, some e), tr)
  | ((_, none), tr1) =>
    let s2 : (Bool × Option JErr) × List Call :=
      if issue.description ≠ issueDesc then updateDescription r issue.key issueDesc
      else ((false, none), [])
    match s2 with
    | ((retry, some e), tr) => ((retry, some e), tr1 ++ tr)
    | ((_, none), tr2) =>
      let acc := tr1 ++ tr2
      if (firingAlerts data.alerts).isEmpty then
        match r.conf.autoResolve with
        | some _ =>
          let x := resolveIssue r issue.key
          match x.1 with
          | (retry, some e) => ((retry, some e), acc ++ x.2)
          | (_, none) => ((false, none), acc ++ x.2)
        | none => ((false, none), acc)
      else if issue.statusCategoryKey ≠ "done" then ((false, none), acc)
      else if r.conf.wontFixResolution ≠ "" ∧ issue.resolution = some r.conf.wontFixResolution then
        ((false, none), acc)
      else
        let x := reopen r issue.key
        (x.1, acc ++ x.2)

/-- The create half of `notify` (notify.go:267-323): with no firing alerts
stop, else render the remaining templates, assemble the new issue (adding
group labels when configured, and the recursively templated custom fields)
and create it. -/
def notifyCreate (r : Receiver) (data : Data) (project : String) (labels : List String)
    (issueSummary issueDesc : String) : (Bool × Option JErr) × List Call :=
  if (firingAlerts data.alerts).isEmpty then ((false, none), [])
  else
    match r.tmpl r.conf.issueType data with
    | .error e => ((false, some (.render "render issue type" e)), [])
    | .ok issueType =>
      let prio : Except JErr (Option String) :=
        if r.conf.priority ≠ "" then
          match r.tmpl r.conf.priority data with
          | .error e => .error (.render "render issue priority" e)
          | .ok p => .ok (some p)
        else .ok none
      match prio with
      | .error e => ((false, some e), [])
      | .ok priority =>
        match renderComponents (fun s => r.tmpl s data) r.conf.components with
        | .error e => ((false, some (.render "render issue component" e)), [])
        | .ok comps =>
          let labels :=
            if r.conf.addGroupLabels then labels ++ data.groupLabels.map labelPair else labels
          match renderUnknowns (fun s => r.tmpl s data) r.conf.fields with
          | .error e => ((false, some (.raw e)), [])
          | .ok unknowns =>
            create r
              { project := project, issueType := issueType, summary := issueSummary,
                description := issueDesc, labels := labels, priority := priority,
                components := comps, unknowns := unknowns }

/-- `notify` (notify.go:184-324): render the project key, build the label
set (common labels when configured, then the identity label), look the
ticket up, render summary and description, and continue per ticket
presence. -/
def notify (r : Receiver) (data : Data) (hashJiraLabel : Bool) : (Bool × Option JErr) × List Call :=
  match r.tmpl r.conf.project data with
  | .error e => ((false, some (.render "generate project from template" e)), [])
  | .ok project =>
    let labels : List String :=
      if r.conf.addCommonLabels then (SortedPairs data.commonLabels).map labelPair else []
    match toIssueIdentifierLabel sha512hex r data hashJiraLabel with
    | .error e => ((false, some (.render "build IssueIdentifierLabel" e)), [])
    | .ok idLabel =>
      let labels := labels ++ [idLabel]
      let f := findIssueToReuse r project idLabel
      match f.1 with
      | (_, retry, some e) => ((retry, some e), f.2)
      | (issueOpt, _, none) =>
        match r.tmpl r.conf.summary data with
        | .error e => ((false, some (.render "generate summary from template" e)), f.2)
        | .ok issueSummary =>
          match r.tmpl r.conf.description data with
          | .error e => ((false, some (.render "render issue description" e)), f.2)
          | .ok issueDesc =>
            match issueOpt with
            | some issue =>
              let x := notifyExisting r data issue issueSummary issueDesc
              (x.1, f.2 ++ x.2)
            | none =>
              let x := notifyCreate r data project labels issueSummary issueDesc
              (x.1, f.2 ++ x.2)

/-- The per-sub-notification loop of `Notify` (notify.go:173-180): process
sequentially, returning the first error immediately. -/
def notifySlice (r : Receiver) (hashJiraLabel : Bool) : List Data → (Bool × Option JErr) × List Call
  | [] => ((false, none), [])
  | d :: ds =>
    let x := notify sha512hex r d hashJiraLabel
    match x.1 with
    | (retry, some e) => ((retry, some e), x.2)
    | (_, none) =>
      let y := notifySlice r hashJiraLabel ds
      (y.1, x.2 ++ y.2)

/-- `Notify` (notify.go:160-181): group per the configured mode (an
unrecognized mode leaves the slice empty) and process each sub-notification
in turn. -/
def Notify (r : Receiver) (data : Data) (hashJiraLabel : Bool) : (Bool × Option JErr) × List Call :=
  let slice : List Data :=
    if r.conf.groupIssueBy = AlertGroup ∨ r.conf.groupIssueBy = "" then [data]
    else if r.conf.groupIssueBy = AlertRule then toAlertRule data
    else if r.conf.groupIssueBy = AlertSingle then toAlert data
    else []
  notifySlice sha512hex r hashJiraLabel slice

end NotifyModel

/-! ## Call counting -/

/-- Workflow-transition calls (`GetTransitions` / `DoTransition`). -/
def isTransitionCall : Call → Bool
  | .getTransitions _ => true
  | .doTransition _ _ => true
  | _ => false

/-- Number of workflow-transition calls in a trace. -/
def countTransitionCalls (tr : List Call) : Nat := (tr.filter isTransitionCall).length

/-- Mutating ticketing-system calls (create, partial update, transition
invocation). -/
def isMutatingCall : Call → Bool
  | .create => true
  | .update _ => true
  | .doTransition _ _ => true
  | _ => false

/-- Number of mutating calls in a trace. -/
def countMutatingCalls (tr : List Call) : Nat := (tr.filter isMutatingCall).length

/-! ## Concrete fixtures for witnesses and counterexamples -/

/-- An identity-like renderer: every template renders to itself. -/
def tmplId : String → Data → Except String String := fun s _ => .ok s

/-- A client whose every response is empty and error-free. -/
def noClient : Client :=
  { search := fun _ _ => ([], none, none)
    getTransitions := fun _ => ([], none, none)
    create := fun _ => (none, none, none)
    updateWithOptions := fun _ => (none, none, none)
    doTransition := fun _ _ => (none, none) }

/-- A Notification with no alerts and no labels. -/
def emptyData : Data :=
  { groupKey := "", groupLabels := [], status := "resolved", commonLabels := [],
    commonAnnotations := [], externalURL := "", alerts := [], receiver := "", version := "" }

/-- A baseline receiver configuration. -/
def baseConf : ReceiverConfig :=
  { project := "PROJ", issueType := "Task", summary := "SUM", description := "DESC",
    priority := "", components := [], fields := [], addCommonLabels := false,
    addGroupLabels := false, issueIdentifierLabel := "", groupIssueBy := "",
    wontFixResolution := "WontFix", reopenState := "Reopen", reopenDuration := 0,
    autoResolve := none }

/-- Fixture for C9: a receiver configured with an unrecognized grouping mode. -/
def recv9 : Receiver :=
  { conf := { baseConf with groupIssueBy := "bogus-mode" }, tmpl := tmplId,
    client := noClient, now := 0 }

/-- Fixture for C3: the ticket offers only a transition named `Other`, and
the configured reopen state is `Reopen`. -/
def recv3 : Receiver :=
  { conf := baseConf, tmpl := tmplId,
    client := { noClient with getTransitions := fun _ => ([⟨"1", "Other"⟩], none, none) },
    now := 0 }

/-- Fixture for C2: heap holding the two label maps and two (empty)
annotation maps of a two-alert batch for rule `A` with disagreeing `sev`. -/
def c2heap : Heap :=
  [[("alertname", "A"), ("sev", "high")], [], [("alertname", "A"), ("sev", "low")], []]

/-- Fixture for C2: the two alerts, referencing the heap maps. -/
def c2alerts : List AlertRef := [⟨"firing", 0, 1⟩, ⟨"resolved", 2, 3⟩]

/-- Fixture for C1's counterexample: a reusable "done" ticket resolved as
the configured won't-fix resolution. -/
def c1issue : Issue :=
  { key := "K", summary := "SUM", description := "DESC", statusCategoryKey := "done",
    resolution := some "WontFix", resolutiondate := none }

/-- Fixture for C1's counterexample: the search finds `c1issue`, and the
workflow offers the auto-resolve transition `Resolved`. -/
def c1recv : Receiver :=
  { conf := { baseConf with autoResolve := some ⟨"Resolved"⟩ }, tmpl := tmplId,
    client :=
      { noClient with
        search := fun _ _ => ([c1issue], none, none)
        getTransitions := fun _ => ([⟨"5", "Resolved"⟩], none, none) },
    now := 0 }

/-- Fixture for C1's witness: as `c1recv` but with no auto-resolve policy. -/
def c1wrecv : Receiver :=
  { conf := baseConf, tmpl := tmplId,
    client :=
      { noClient with
        search := fun _ _ => ([c1issue], none, none)
        getTransitions := fun _ => ([⟨"5", "Resolved"⟩], none, none) },
    now := 0 }

/-- Fixture for C8's counterexample: the summary template fails to render. -/
def c8recv : Receiver :=
  { conf := { baseConf with summary := "S_T" },
    tmpl := fun s _ => if s = "S_T" then .error "boom" else .ok s,
    client := noClient, now := 0 }

/-- Fixture for C8's witness: everything renders, the search finds nothing. -/
def c8wrecv : Receiver :=
  { conf := baseConf, tmpl := tmplId, client := noClient, now := 0 }

/-- Fixture for C5's witness: a found ticket resolved at time 10 against a
reopen duration of 5 and a current time of 100 (too stale). -/
def c5issue : Issue :=
  { key := "K5", summary := "S", description := "D", statusCategoryKey := "done",
    resolution := some "Done", resolutiondate := some 10 }

/-- Fixture for C5's witness. -/
def c5recv : Receiver :=
  { conf := { baseConf with reopenDuration := 5 }, tmpl := tmplId,
    client := { noClient with search := fun _ _ => ([c5issue], none, none) }, now := 100 }

/-- Fixture for C4's counterexample: two alerts of rule `A`, the first
carrying `sev` with the empty-string value, the second lacking `sev`. -/
def c4x : Data :=
  { emptyData with
    alerts := [⟨"firing", [("alertname", "A"), ("sev", "")], []⟩,
               ⟨"resolved", [("alertname", "A")], []⟩] }

/-- Fixture for C4's witness: a four-alert batch with two rules, one
disagreeing label, and one alert lacking `alertname`. -/
def c4w : Data :=
  { emptyData with
    alerts := [⟨"firing", [("alertname", "A"), ("sev", "high")], []⟩,
               ⟨"resolved", [("alertname", "A"), ("sev", "low")], []⟩,
               ⟨"firing", [("alertname", "B")], []⟩,
               ⟨"firing", [("noname", "x")], []⟩] }

/-! # Theorems -/

/-! ## Trace-shape helper lemmas -/

/-- `findIssueToReuse` always performs exactly the one search call. -/
theorem findIssueToReuse_trace (r : Receiver) (project lbl : String) :
    (findIssueToReuse r project lbl).2 = [Call.search (searchQuery project lbl)] := rfl

/-- `updateSummary` always performs exactly the one update call. -/
theorem updateSummary_trace (r : Receiver) (k s : String) :
    (updateSummary r k s).2 = [Call.update k] := rfl

/-- `updateDescription` always performs exactly the one update call. -/
theorem updateDescription_trace (r : Receiver) (k s : String) :
    (updateDescription r k s).2 = [Call.update k] := rfl

/-! ## C10 — the empty legacy identity label -/

/-- C10: in legacy (non-hashed) mode with no group labels, the derived
identity label is exactly `ALERT}` — the trailing-byte truncation removes
the opening brace, yielding an unbalanced label instead of `ALERT{}`. -/
theorem toGroupTicketLabel_empty_legacy (sha512hex : String → String) :
    toGroupTicketLabel sha512hex [] false = "ALERT\x7d"
    ∧ toGroupTicketLabel sha512hex [] false ≠ "ALERT\x7b\x7d" := by
  have h : toGroupTicketLabel sha512hex [] false = "ALERT\x7d" := rfl
  exact ⟨h, by rw [h]; decide⟩

/-! ## C7 — retry classification of client failures -/

/-- C7: a non-2xx response is retryable exactly for HTTP status 500 or 503;
a transport-level failure with no response is never retryable. -/
theorem handleJiraErrResponse_retry_classification (api : String) (resp : Option Resp)
    (err : Option String) :
    (∀ rp, resp = some rp → rp.statusCode / 100 ≠ 2 →
        ((handleJiraErrResponse api resp err).1 = true ↔
          rp.statusCode = 500 ∨ rp.statusCode = 503))
    ∧ (resp = none → (handleJiraErrResponse api resp err).1 = false) := by
  constructor
  · rintro rp rfl h2
    simp [handleJiraErrResponse, h2]
  · rintro rfl
    simp [handleJiraErrResponse]

/-- Witness for C7 at a concrete 503 response. -/
theorem handleJiraErrResponse_retry_classification_witness :
    (503 : Nat) / 100 ≠ 2
    ∧ (handleJiraErrResponse "Issue.Search" (some ⟨503, "SU", "B", "U"⟩) none).1 = true := by
  refine ⟨by decide, ?_⟩
  exact ((handleJiraErrResponse_retry_classification "Issue.Search"
    (some ⟨503, "SU", "B", "U"⟩) none).1 ⟨503, "SU", "B", "U"⟩ rfl (by decide)).mpr
    (Or.inr rfl)

/-! ## C9 — unrecognized grouping mode -/

/-- C9: when the configured grouping mode is none of by-group (or unset),
by-rule, or by-alert, `Notify` makes no client call at all and returns
`(false, no error)`, silently dropping the notification. -/
theorem Notify_unknown_grouping_noop (sha512hex : String → String) (r : Receiver) (data : Data)
    (hashJiraLabel : Bool)
    (h1 : r.conf.groupIssueBy ≠ AlertGroup) (h2 : r.conf.groupIssueBy ≠ "")
    (h3 : r.conf.groupIssueBy ≠ AlertRule) (h4 : r.conf.groupIssueBy ≠ AlertSingle) :
    Notify sha512hex r data hashJiraLabel = ((false, none), []) := by
  simp [Notify, h1, h2, h3, h4, notifySlice]

/-- Witness for C9 at the fixture receiver configured with mode
`bogus-mode`. -/
theorem Notify_unknown_grouping_noop_witness :
    recv9.conf.groupIssueBy ≠ AlertGroup ∧ recv9.conf.groupIssueBy ≠ ""
    ∧ recv9.conf.groupIssueBy ≠ AlertRule ∧ recv9.conf.groupIssueBy ≠ AlertSingle
    ∧ Notify (fun _ => "") recv9 emptyData false = ((false, none), []) := by
  refine ⟨by decide, by decide, by decide, by decide, ?_⟩
  exact Notify_unknown_grouping_noop (fun _ => "") recv9 emptyData false
    (by decide) (by decide) (by decide) (by decide)

/-! ## C3 — requesting a transition that does not exist -/

/-- C3 (code bug): with no transition matching the requested target state
`Done`, `doTransition` invokes no transition (the trace holds only the
listing call), returns non-retryable, and fails — but the error message
quotes the configured reopen state `Reopen` (notify.go:558 interpolates
`r.conf.ReopenState`), not the requested target state `Done`. -/
theorem doTransition_missing_state_behavior :
    doTransition recv3 "K-1" "Done"
      = ((false, some (.stateNotExist "Reopen" "K-1")), [Call.getTransitions "K-1"])
    ∧ recv3.conf.reopenState = "Reopen"
    ∧ ("Reopen" : String) ≠ "Done"
    ∧ (∀ t ∈ (recv3.client.getTransitions "K-1").1, t.name ≠ "Done") := by
  refine ⟨by decide, by decide, by decide, by decide⟩

/-! ## C2 — by-rule grouping mutates the original batch -/

/-- C2 (code bug): running by-rule grouping over a two-alert batch whose
`sev` labels disagree deletes `sev` from the first alert's label map in
place (Go map aliasing through `commonLabels = data.Alerts[0].Labels`),
so the original notification is no longer intact afterwards. -/
theorem toAlertRuleRef_mutates_original :
    hGet c2heap 0 = [("alertname", "A"), ("sev", "high")]
    ∧ (toAlertRuleRef c2heap c2alerts).2 ≠ c2heap
    ∧ hGet (toAlertRuleRef c2heap c2alerts).2 0 = [("alertname", "A")] := by
  refine ⟨by decide, by decide, by decide⟩

/-! ## C5 — reopen-duration staleness of a found ticket -/

/-- C5: for a ticket the search returns, `findIssueToReuse` discards it
exactly when its resolution time is set, the reopen duration is nonzero,
and resolution time plus reopen duration lies strictly before now; a zero
reopen duration disables the check, and a ticket resolved at `t` is still
returned whenever `now ≤ t + duration`. -/
theorem findIssueToReuse_staleness (r : Receiver) (project lbl : String) (issue : Issue)
    (hfound : (search r project lbl).1 = (some issue, false, none)) :
    ((findIssueToReuse r project lbl).1.1 = none ↔
      ∃ t, issue.resolutiondate = some t ∧ r.conf.reopenDuration ≠ 0
        ∧ t + r.conf.reopenDuration < r.now)
    ∧ (r.conf.reopenDuration = 0 → (findIssueToReuse r project lbl).1.1 = some issue)
    ∧ (∀ t, issue.resolutiondate = some t → r.now ≤ t + r.conf.reopenDuration →
        (findIssueToReuse r project lbl).1.1 = some issue) := by
  have hmain : (findIssueToReuse r project lbl).1 =
      match issue.resolutiondate with
      | some rt =>
        if rt + r.conf.reopenDuration < r.now ∧ r.conf.reopenDuration ≠ 0 then
          (none, false, none)
        else (some issue, false, none)
      | none => (some issue, false, none) := by
    simp only [findIssueToReuse, hfound]
  rcases hres : issue.resolutiondate with _ | t
  · rw [hres] at hmain
    have hm : (findIssueToReuse r project lbl).1 = (some issue, false, none) := by
      rw [hmain]
    refine ⟨?_, fun _ => by rw [hm], fun t1 ht1 _ => Option.noConfusion ht1⟩
    rw [hm]
    constructor
    · intro h; simp at h
    · rintro ⟨t1, ht1, _, _⟩
      exact Option.noConfusion ht1
  · rw [hres] at hmain
    by_cases hc : t + r.conf.reopenDuration < r.now ∧ r.conf.reopenDuration ≠ 0
    · have hm : (findIssueToReuse r project lbl).1 = (none, false, none) := by
        rw [hmain]; exact if_pos hc
      refine ⟨?_, fun h0 => absurd h0 hc.2, fun t1 ht1 hle => ?_⟩
      · rw [hm]
        exact ⟨fun _ => ⟨t, rfl, hc.2, hc.1⟩, fun _ => rfl⟩
      · injection ht1 with h
        subst h
        exact absurd hc.1 (not_lt.mpr hle)
    · have hm : (findIssueToReuse r project lbl).1 = (some issue, false, none) := by
        rw [hmain]; exact if_neg hc
      refine ⟨?_, fun _ => by rw [hm], fun _ _ _ => by rw [hm]⟩
      rw [hm]
      constructor
      · intro h; simp at h
      · rintro ⟨t1, ht1, hnz, hlt⟩
        injection ht1 with h
        subst h
        exact absurd ⟨hlt, hnz⟩ hc

/-- Witness for C5: the fixture ticket resolved at 10 with duration 5 and
now 100 is too stale and is discarded. -/
theorem findIssueToReuse_staleness_witness :
    (search c5recv "PROJ" "L5").1 = (some c5issue, false, none)
    ∧ (findIssueToReuse c5recv "PROJ" "L5").1.1 = none := by
  refine ⟨by decide, ?_⟩
  exact ((findIssueToReuse_staleness c5recv "PROJ" "L5" c5issue (by decide)).1).mpr
    ⟨10, by decide, by decide, by decide⟩

/-! ## C8 — no ticket found and nothing firing -/

/-- C8 counterexample: with no reusable ticket and zero firing alerts but a
summary template that fails to render, `notify` returns an error, so the
claimed unconditional `(false, no error)` outcome is false as stated. -/
theorem notify_no_ticket_no_firing_counterexample :
    (findIssueToReuse c8recv "PROJ" "ALERT\x7d").1 = (none, false, none)
    ∧ firingAlerts emptyData.alerts = []
    ∧ (notify (fun _ => "") c8recv emptyData false).1 ≠ (false, none) := by
  refine ⟨by decide, by decide, by decide⟩

/-- C8 (amended): when the ticket lookup finds no reusable ticket and no
alert is firing, `notify` performs no mutating client call (no create, no
update, no transition invocation) and returns shouldRetry = false; when
moreover the summary and description templates render successfully, it
returns no error. -/
theorem notify_no_ticket_no_firing_noop (sha512hex : String → String) (r : Receiver)
    (data : Data) (hashJiraLabel : Bool) (project idLabel : String)
    (hproj : r.tmpl r.conf.project data = .ok project)
    (hid : toIssueIdentifierLabel sha512hex r data hashJiraLabel = .ok idLabel)
    (hfind : (findIssueToReuse r project idLabel).1 = (none, false, none))
    (hfire : firingAlerts data.alerts = []) :
    countMutatingCalls (notify sha512hex r data hashJiraLabel).2 = 0
    ∧ (notify sha512hex r data hashJiraLabel).1.1 = false
    ∧ (∀ s ds, r.tmpl r.conf.summary data = .ok s → r.tmpl r.conf.description data = .ok ds →
        (notify sha512hex r data hashJiraLabel).1 = (false, none)) := by
  have hcount : countMutatingCalls (findIssueToReuse r project idLabel).2 = 0 := by
    rw [findIssueToReuse_trace]; rfl
  rcases hs : r.tmpl r.conf.summary data with es | s
  · have hres : notify sha512hex r data hashJiraLabel
        = ((false, some (.render "generate summary from template" es)),
           (findIssueToReuse r project idLabel).2) := by
      simp only [notify, hproj, hid, hfind, hs]
    refine ⟨?_, ?_, ?_⟩
    · rw [hres]; exact hcount
    · rw [hres]
    · intro s' ds' hs' _
      exact Except.noConfusion hs'
  · rcases hd : r.tmpl r.conf.description data with ed | ds
    · have hres : notify sha512hex r data hashJiraLabel
          = ((false, some (.render "render issue description" ed)),
             (findIssueToReuse r project idLabel).2) := by
        simp only [notify, hproj, hid, hfind, hs, hd]
      refine ⟨?_, ?_, ?_⟩
      · rw [hres]; exact hcount
      · rw [hres]
      · intro s' ds' _ hd'
        exact Except.noConfusion hd'
    · have hres : notify sha512hex r data hashJiraLabel
          = ((false, none), (findIssueToReuse r project idLabel).2 ++ []) := by
        simp only [notify, hproj, hid, hfind, hs, hd, notifyCreate, hfire, List.isEmpty_nil,
          if_true]
      refine ⟨?_, ?_, ?_⟩
      · rw [hres]
        simpa [countMutatingCalls] using hcount
      · rw [hres]
      · intro s' ds' _ _
        rw [hres]

/-- Witness for C8 (amended) at the fixture receiver whose search finds
nothing, run on an all-resolved empty Notification. -/
theorem notify_no_ticket_no_firing_noop_witness :
    ((findIssueToReuse c8wrecv "PROJ" "ALERT\x7d").1 = (none, false, none)
      ∧ firingAlerts emptyData.alerts = [])
    ∧ countMutatingCalls (notify (fun _ => "") c8wrecv emptyData false).2 = 0
    ∧ (notify (fun _ => "") c8wrecv emptyData false).1 = (false, none) := by
  have h := notify_no_ticket_no_firing_noop (fun _ => "") c8wrecv emptyData false
    "PROJ" "ALERT\x7d" rfl rfl rfl rfl
  exact ⟨⟨rfl, rfl⟩, h.1, h.2.2 "SUM" "DESC" rfl rfl⟩

/-! ## C1 — won't-fix tickets and transition calls -/

/-- Transition-call counts add over concatenated traces. -/
theorem countTransitionCalls_append (a b : List Call) :
    countTransitionCalls (a ++ b) = countTransitionCalls a + countTransitionCalls b := by
  simp [countTransitionCalls, List.filter_append]

/-- On a found "done" ticket resolved as the configured won't-fix
resolution, the found-ticket half of `notify` makes no transition call,
provided no auto-resolve policy is configured or some alert is firing. -/
theorem notifyExisting_wontfix_trace (r : Receiver) (data : Data) (issue : Issue)
    (s ds : String)
    (hdone : issue.statusCategoryKey = "done")
    (hwfne : r.conf.wontFixResolution ≠ "")
    (hwf : issue.resolution = some r.conf.wontFixResolution)
    (hguard : firingAlerts data.alerts ≠ [] ∨ r.conf.autoResolve = none) :
    countTransitionCalls (notifyExisting r data issue s ds).2 = 0 := by
  have h1 : countTransitionCalls
      (if issue.summary ≠ s then updateSummary r issue.key s else ((false, none), [])).2 = 0 := by
    by_cases h : issue.summary ≠ s
    · rw [if_pos h, updateSummary_trace]; rfl
    · rw [if_neg h]; rfl
  have h2 : countTransitionCalls
      (if issue.description ≠ ds then updateDescription r issue.key ds
       else ((false, none), [])).2 = 0 := by
    by_cases h : issue.description ≠ ds
    · rw [if_pos h, updateDescription_trace]; rfl
    · rw [if_neg h]; rfl
  simp only [notifyExisting]
  rcases hu : (if issue.summary ≠ s then updateSummary r issue.key s else ((false, none), []))
    with ⟨⟨rb, eo⟩, tr⟩
  rw [hu] at h1
  rcases eo with _ | e
  · rcases hv : (if issue.description ≠ ds then updateDescription r issue.key ds
        else ((false, none), [])) with ⟨⟨rb2, eo2⟩, tr2⟩
    rw [hv] at h2
    rcases eo2 with _ | e2
    · cases hfe : (firingAlerts data.alerts).isEmpty with
      | true =>
        have hnil : firingAlerts data.alerts = [] := by simpa using hfe
        rcases hguard with hg | hg
        · exact absurd hnil hg
        · simp only [hfe, if_true, hg]
          rw [countTransitionCalls_append, h1, h2]
      | false =>
        simp only [hfe, Bool.false_eq_true, if_false]
        rw [if_neg (by simp [hdone]), if_pos ⟨hwfne, hwf⟩]
        rw [countTransitionCalls_append, h1, h2]
    · rw [countTransitionCalls_append, h1, h2]
  · exact h1

/-- C1 counterexample: against a found "done" ticket resolved as the
configured won't-fix resolution, a Notification with zero firing alerts
under a configured auto-resolve policy triggers `resolveIssue`, which makes
two transition calls (`GetTransitions` and `DoTransition`) — so "zero
transition calls regardless of firing alerts and of the auto-resolve
policy" is false as stated. -/
theorem notify_wontfix_counterexample :
    (findIssueToReuse c1recv "PROJ" "ALERT\x7d").1 = (some c1issue, false, none)
    ∧ c1issue.statusCategoryKey = "done"
    ∧ c1recv.conf.wontFixResolution ≠ ""
    ∧ c1issue.resolution = some c1recv.conf.wontFixResolution
    ∧ firingAlerts emptyData.alerts = []
    ∧ c1recv.conf.autoResolve = some ⟨"Resolved"⟩
    ∧ countTransitionCalls (notify (fun _ => "") c1recv emptyData false).2 = 2
    ∧ countTransitionCalls (notify (fun _ => "") c1recv emptyData false).2 ≠ 0 := by
  refine ⟨by decide, by decide, by decide, by decide, by decide, by decide, by decide, by decide⟩

/-- C1 (amended): for a found reusable ticket whose status category is
"done" and whose resolution equals the configured (non-empty) won't-fix
resolution, `notify` makes zero workflow-transition calls — provided no
auto-resolve policy is configured or at least one alert is firing (with an
auto-resolve policy and zero firing alerts, the auto-resolve step runs
first and transitions the ticket). -/
theorem notify_wontfix_no_transitions (sha512hex : String → String) (r : Receiver)
    (data : Data) (hashJiraLabel : Bool) (project idLabel : String) (issue : Issue)
    (hproj : r.tmpl r.conf.project data = .ok project)
    (hid : toIssueIdentifierLabel sha512hex r data hashJiraLabel = .ok idLabel)
    (hfind : (findIssueToReuse r project idLabel).1 = (some issue, false, none))
    (hdone : issue.statusCategoryKey = "done")
    (hwfne : r.conf.wontFixResolution ≠ "")
    (hwf : issue.resolution = some r.conf.wontFixResolution)
    (hguard : firingAlerts data.alerts ≠ [] ∨ r.conf.autoResolve = none) :
    countTransitionCalls (notify sha512hex r data hashJiraLabel).2 = 0 := by
  have hcf : countTransitionCalls (findIssueToReuse r project idLabel).2 = 0 := by
    rw [findIssueToReuse_trace]; rfl
  rcases hs : r.tmpl r.conf.summary data with es | s
  · have hres : notify sha512hex r data hashJiraLabel
        = ((false, some (.render "generate summary from template" es)),
           (findIssueToReuse r project idLabel).2) := by
      simp only [notify, hproj, hid, hfind, hs]
    rw [hres]; exact hcf
  · rcases hd : r.tmpl r.conf.description data with ed | ds
    · have hres : notify sha512hex r data hashJiraLabel
          = ((false, some (.render "render issue description" ed)),
             (findIssueToReuse r project idLabel).2) := by
        simp only [notify, hproj, hid, hfind, hs, hd]
      rw [hres]; exact hcf
    · have hres : notify sha512hex r data hashJiraLabel
          = ((notifyExisting r data issue s ds).1,
             (findIssueToReuse r project idLabel).2 ++ (notifyExisting r data issue s ds).2) := by
        simp only [notify, hproj, hid, hfind, hs, hd]
      rw [hres, countTransitionCalls_append, hcf,
        notifyExisting_wontfix_trace r data issue s ds hdone hwfne hwf hguard]

/-- Witness for C1 (amended) at the fixture with no auto-resolve policy:
the won't-fix check stops reconciliation with no transition call. -/
theorem notify_wontfix_no_transitions_witness :
    ((findIssueToReuse c1wrecv "PROJ" "ALERT\x7d").1 = (some c1issue, false, none)
      ∧ c1issue.statusCategoryKey = "done"
      ∧ c1wrecv.conf.wontFixResolution ≠ ""
      ∧ c1issue.resolution = some c1wrecv.conf.wontFixResolution
      ∧ c1wrecv.conf.autoResolve = none)
    ∧ countTransitionCalls (notify (fun _ => "") c1wrecv emptyData false).2 = 0 := by
  refine ⟨⟨rfl, rfl, by decide, rfl, rfl⟩, ?_⟩
  exact notify_wontfix_no_transitions (fun _ => "") c1wrecv emptyData false
    "PROJ" "ALERT\x7d" c1issue rfl rfl rfl rfl (by decide) rfl (Or.inr rfl)

/-! ## C6 — identity-label derivation is insertion-order independent -/

/-- A lookup misses exactly when the key is absent. -/
theorem kvGet_eq_none_iff (kv : KV) (k : String) :
    kvGet kv k = none ↔ k ∉ kv.map Prod.fst := by
  induction kv with
  | nil => simp [kvGet]
  | cons p t ih =>
    by_cases h : p.1 = k
    · simp [kvGet, h]
    · simp [kvGet, h, ih, Ne.symm h]

/-- Over a map with no duplicate keys, a lookup hit is exactly membership. -/
theorem kvGet_eq_some_iff (kv : KV) (k v : String) :
    NodupKeys kv → (kvGet kv k = some v ↔ (k, v) ∈ kv) := by
  induction kv with
  | nil => intro _; simp [kvGet]
  | cons p t ih =>
    intro nd
    simp only [NodupKeys, List.map_cons, List.nodup_cons] at nd
    obtain ⟨nd1, nd2⟩ := nd
    by_cases h : p.1 = k
    · subst h
      rw [kvGet, if_pos rfl, List.mem_cons]
      constructor
      · intro hv
        injection hv with hv
        left
        rw [← hv]
      · intro hv
        rcases hv with hv | hv
        · have h2 := congrArg Prod.snd hv
          simp only at h2
          rw [h2]
        · exact absurd (List.mem_map_of_mem Prod.fst hv) nd1
    · rw [kvGet, if_neg h, ih nd2, List.mem_cons]
      constructor
      · exact fun hv => Or.inr hv
      · intro hv
        rcases hv with hv | hv
        · exact absurd (congrArg Prod.fst hv.symm) h
        · exact hv

/-- Permuting a duplicate-free map does not change any lookup. -/
theorem kvGet_perm (kv1 kv2 : KV) (h : kv1.Perm kv2) (nd : NodupKeys kv1) (k : String) :
    kvGet kv1 k = kvGet kv2 k := by
  have nd2 : NodupKeys kv2 := ((h.map Prod.fst).nodup_iff).mp nd
  cases hc : kvGet kv1 k with
  | none =>
    have := (kvGet_eq_none_iff kv1 k).mp hc
    have : k ∉ kv2.map Prod.fst := fun hk => this ((h.map Prod.fst).mem_iff.mpr hk)
    exact ((kvGet_eq_none_iff kv2 k).mpr this).symm
  | some v =>
    have := (kvGet_eq_some_iff kv1 k v nd).mp hc
    exact ((kvGet_eq_some_iff kv2 k v nd2).mpr (h.mem_iff.mp this)).symm

/-- Permuting a duplicate-free map does not change its sorted pairs. -/
theorem SortedPairs_perm (kv1 kv2 : KV) (h : kv1.Perm kv2) (nd : NodupKeys kv1) :
    SortedPairs kv1 = SortedPairs kv2 := by
  haveI : IsAntisymm String (· ≤ ·) := ⟨fun _ _ h1 h2 => le_antisymm h1 h2⟩
  haveI : IsTotal String (· ≤ ·) := ⟨fun a b => le_total a b⟩
  haveI : IsTrans String (· ≤ ·) := ⟨fun _ _ _ h1 h2 => le_trans h1 h2⟩
  have hkeys : (kv1.map Prod.fst).insertionSort (· ≤ ·)
      = (kv2.map Prod.fst).insertionSort (· ≤ ·) :=
    List.eq_of_perm_of_sorted
      (((List.perm_insertionSort _ _).trans (h.map Prod.fst)).trans
        (List.perm_insertionSort _ _).symm)
      (List.sorted_insertionSort _ _) (List.sorted_insertionSort _ _)
  unfold SortedPairs
  rw [hkeys]
  have hfun : (fun k => (k, kvGetD kv1 k)) = (fun k => (k, kvGetD kv2 k)) := by
    funext k
    simp [kvGetD, kvGet_perm kv1 kv2 h nd k]
  rw [hfun]

/-- C6: in both derivation modes (legacy and hashed, the latter for every
digest function), the non-template identity label depends only on the set
of label pairs: permuting the mapping's insertion order yields
character-for-character the same label. -/
theorem toGroupTicketLabel_perm_invariant (sha512hex : String → String) (kv1 kv2 : KV)
    (hashJiraLabel : Bool) (hperm : kv1.Perm kv2) (hnd : NodupKeys kv1) :
    toGroupTicketLabel sha512hex kv1 hashJiraLabel
      = toGroupTicketLabel sha512hex kv2 hashJiraLabel := by
  unfold toGroupTicketLabel
  rw [SortedPairs_perm kv1 kv2 hperm hnd]

/-- Witness for C6 at a two-pair mapping and its swap, in legacy mode with
the identity digest. -/
theorem toGroupTicketLabel_perm_invariant_witness :
    (([("b", "2"), ("a", "1")] : KV).Perm [("a", "1"), ("b", "2")]
      ∧ NodupKeys [("b", "2"), ("a", "1")])
    ∧ toGroupTicketLabel (fun s => s) [("b", "2"), ("a", "1")] false
      = toGroupTicketLabel (fun s => s) [("a", "1"), ("b", "2")] false := by
  refine ⟨⟨by decide, by decide⟩, ?_⟩
  exact toGroupTicketLabel_perm_invariant (fun s => s) [("b", "2"), ("a", "1")]
    [("a", "1"), ("b", "2")] false (by decide) (by decide)

/-! ## C4 — characterization of by-rule grouping -/

/-- Looking up after a map assignment. -/
theorem alookup_assocSet (acc : List (String × Data)) (k : String) (v : Data) (n : String) :
    alookup (assocSet acc k v) n = if k = n then some v else alookup acc n := by
  induction acc with
  | nil =>
    by_cases hn : k = n <;> simp [assocSet, alookup, hn]
  | cons p t ih =>
    by_cases h : p.1 = k
    · by_cases hn : k = n
      · simp [assocSet, alookup, h, hn]
      · have hpn : ¬ p.1 = n := by rw [h]; exact hn
        simp [assocSet, alookup, h, hn, hpn]
    · by_cases hn : p.1 = n
      · have hkn : ¬ k = n := by rw [← hn]; exact fun hh => h hh.symm
        have hnk : ¬ n = k := fun hh => hkn hh.symm
        simp [assocSet, alookup, h, hn, hkn, hnk]
      · simp [assocSet, alookup, h, hn, ih]

/-- The keys after a map assignment: unchanged when present, appended when
new. -/
theorem keys_assocSet (acc : List (String × Data)) (k : String) (v : Data) :
    (assocSet acc k v).map Prod.fst
      = if k ∈ acc.map Prod.fst then acc.map Prod.fst else acc.map Prod.fst ++ [k] := by
  induction acc with
  | nil => simp [assocSet]
  | cons p t ih =>
    by_cases h : p.1 = k
    · simp [assocSet, h]
    · by_cases hk : k ∈ t.map Prod.fst
      · simp [assocSet, h, ih, hk, Ne.symm h]
      · simp [assocSet, h, ih, hk, Ne.symm h]

/-- The keys of the first `toAlertRule` loop are collected by `nameStep`. -/
theorem keys_foldl_upsert (d : Data) (l : List Alert) :
    ∀ acc : List (String × Data),
      (l.foldl (upsertRule d) acc).map Prod.fst = l.foldl nameStep (acc.map Prod.fst) := by
  induction l with
  | nil => intro acc; rfl
  | cons a t ih =>
    intro acc
    rw [List.foldl_cons, List.foldl_cons, ih]
    congr 1
    unfold upsertRule nameStep
    cases alertName a with
    | none => rfl
    | some m => rw [keys_assocSet]

/-- First `toAlertRule` loop, lookup characterization, key already bound. -/
theorem alookup_foldl_upsert_some (d : Data) (l : List Alert) :
    ∀ (acc : List (String × Data)) (n : String) (dt : Data), alookup acc n = some dt →
      alookup (l.foldl (upsertRule d) acc) n
        = some ((l.filter (fun a => alertName a == some n)).foldl addAlertToRule dt) := by
  induction l with
  | nil => intro acc n dt h; simpa using h
  | cons a t ih =>
    intro acc n dt h
    rw [List.foldl_cons]
    cases hm : alertName a with
    | none =>
      have hpred : (alertName a == some n) = false := by rw [hm]; rfl
      have hup : upsertRule d acc a = acc := by unfold upsertRule; rw [hm]
      have hflt : (a :: t).filter (fun x => alertName x == some n)
          = t.filter (fun x => alertName x == some n) := by
        simp [List.filter_cons, hpred]
      rw [hup, hflt]
      exact ih acc n dt h
    | some m =>
      have hup : upsertRule d acc a
          = assocSet acc m (addAlertToRule ((alookup acc m).getD (initRuleData d)) a) := by
        unfold upsertRule; rw [hm]
      rw [hup]
      by_cases hn : m = n
      · subst hn
        have hacc' : alookup (assocSet acc m (addAlertToRule ((alookup acc m).getD
            (initRuleData d)) a)) m = some (addAlertToRule dt a) := by
          rw [alookup_assocSet, if_pos rfl, h, Option.getD_some]
        have hpred : (alertName a == some m) = true := by rw [hm]; simp
        have hflt : (a :: t).filter (fun x => alertName x == some m)
            = a :: t.filter (fun x => alertName x == some m) := by
          simp [List.filter_cons, hpred]
        rw [ih _ m _ hacc', hflt, List.foldl_cons]
      · have hacc' : alookup (assocSet acc m (addAlertToRule ((alookup acc m).getD
            (initRuleData d)) a)) n = some dt := by
          rw [alookup_assocSet, if_neg hn]; exact h
        have hpred : (alertName a == some n) = false := by rw [hm]; simp [hn]
        have hflt : (a :: t).filter (fun x => alertName x == some n)
            = t.filter (fun x => alertName x == some n) := by
          simp [List.filter_cons, hpred]
        rw [ih _ n _ hacc', hflt]

/-- First `toAlertRule` loop, lookup characterization, fresh key. -/
theorem alookup_foldl_upsert_none (d : Data) (l : List Alert) :
    ∀ (acc : List (String × Data)) (n : String), alookup acc n = none →
      alookup (l.foldl (upsertRule d) acc) n
        = if (l.filter (fun a => alertName a == some n)).isEmpty then none
          else some ((l.filter (fun a => alertName a == some n)).foldl addAlertToRule
            (initRuleData d)) := by
  induction l with
  | nil => intro acc n h; simpa using h
  | cons a t ih =>
    intro acc n h
    rw [List.foldl_cons]
    cases hm : alertName a with
    | none =>
      have hpred : (alertName a == some n) = false := by rw [hm]; rfl
      have hup : upsertRule d acc a = acc := by unfold upsertRule; rw [hm]
      have hflt : (a :: t).filter (fun x => alertName x == some n)
          = t.filter (fun x => alertName x == some n) := by
        simp [List.filter_cons, hpred]
      rw [hup, hflt]
      exact ih acc n h
    | some m =>
      have hup : upsertRule d acc a
          = assocSet acc m (addAlertToRule ((alookup acc m).getD (initRuleData d)) a) := by
        unfold upsertRule; rw [hm]
      rw [hup]
      by_cases hn : m = n
      · subst hn
        have hacc' : alookup (assocSet acc m (addAlertToRule ((alookup acc m).getD
            (initRuleData d)) a)) m = some (addAlertToRule (initRuleData d) a) := by
          rw [alookup_assocSet, if_pos rfl, h, Option.getD_none]
        have hpred : (alertName a == some m) = true := by rw [hm]; simp
        have hflt : (a :: t).filter (fun x => alertName x == some m)
            = a :: t.filter (fun x => alertName x == some m) := by
          simp [List.filter_cons, hpred]
        rw [alookup_foldl_upsert_some d t _ m _ hacc', hflt]
        simp [List.foldl_cons]
      · have hacc' : alookup (assocSet acc m (addAlertToRule ((alookup acc m).getD
            (initRuleData d)) a)) n = none := by
          rw [alookup_assocSet, if_neg hn]; exact h
        have hpred : (alertName a == some n) = false := by rw [hm]; simp [hn]
        have hflt : (a :: t).filter (fun x => alertName x == some n)
            = t.filter (fun x => alertName x == some n) := by
          simp [List.filter_cons, hpred]
        rw [ih _ n hacc', hflt]

/-- Membership in the collected rule names. -/
theorem mem_foldl_nameStep (l : List Alert) :
    ∀ (ks : List String) (n : String),
      n ∈ l.foldl nameStep ks ↔ n ∈ ks ∨ ∃ a ∈ l, alertName a = some n := by
  induction l with
  | nil => intro ks n; simp
  | cons a t ih =>
    intro ks n
    rw [List.foldl_cons, ih]
    cases hm : alertName a with
    | none =>
      have hstep : nameStep ks a = ks := by unfold nameStep; rw [hm]
      rw [hstep]
      constructor
      · rintro (h | h)
        · exact Or.inl h
        · exact Or.inr (by rcases h with ⟨x, hx, hnx⟩; exact ⟨x, List.mem_cons_of_mem a hx, hnx⟩)
      · rintro (h | ⟨x, hx, hnx⟩)
        · exact Or.inl h
        · rcases List.mem_cons.mp hx with rfl | hx2
          · rw [hm] at hnx; cases hnx
          · exact Or.inr ⟨x, hx2, hnx⟩
    | some m =>
      have hstep : nameStep ks a = if m ∈ ks then ks else ks ++ [m] := by
        unfold nameStep; rw [hm]
      rw [hstep]
      by_cases hk : m ∈ ks
      · rw [if_pos hk]
        constructor
        · rintro (h | h)
          · exact Or.inl h
          · exact Or.inr (by rcases h with ⟨x, hx, hnx⟩; exact ⟨x, List.mem_cons_of_mem a hx, hnx⟩)
        · rintro (h | ⟨x, hx, hnx⟩)
          · exact Or.inl h
          · rcases List.mem_cons.mp hx with rfl | hx2
            · rw [hm] at hnx
              injection hnx with hnx
              exact Or.inl (hnx ▸ hk)
            · exact Or.inr ⟨x, hx2, hnx⟩
      · rw [if_neg hk]
        constructor
        · rintro (h | h)
          · rcases List.mem_append.mp h with h2 | h2
            · exact Or.inl h2
            · rcases List.mem_singleton.mp h2 with rfl
              exact Or.inr ⟨a, List.mem_cons_self a t, hm⟩
          · exact Or.inr (by rcases h with ⟨x, hx, hnx⟩; exact ⟨x, List.mem_cons_of_mem a hx, hnx⟩)
        · rintro (h | ⟨x, hx, hnx⟩)
          · exact Or.inl (List.mem_append.mpr (Or.inl h))
          · rcases List.mem_cons.mp hx with rfl | hx2
            · rw [hm] at hnx
              injection hnx with hnx
              exact Or.inl (List.mem_append.mpr (Or.inr (by simp [hnx])))
            · exact Or.inr ⟨x, hx2, hnx⟩

/-- The collected rule names are duplicate-free. -/
theorem nodup_foldl_nameStep (l : List Alert) :
    ∀ ks : List String, ks.Nodup → (l.foldl nameStep ks).Nodup := by
  induction l with
  | nil => intro ks h; exact h
  | cons a t ih =>
    intro ks h
    rw [List.foldl_cons]
    apply ih
    cases hm : alertName a with
    | none =>
      have hstep : nameStep ks a = ks := by unfold nameStep; rw [hm]
      rw [hstep]; exact h
    | some m =>
      have hstep : nameStep ks a = if m ∈ ks then ks else ks ++ [m] := by
        unfold nameStep; rw [hm]
      rw [hstep]
      by_cases hk : m ∈ ks
      · rw [if_pos hk]; exact h
      · rw [if_neg hk]
        simp [List.nodup_append, h, hk]

/-- A name occurs among the rule names exactly when some alert carries it. -/
theorem mem_ruleNames (l : List Alert) (n : String) :
    n ∈ ruleNames l ↔ ∃ a ∈ l, alertName a = some n := by
  rw [ruleNames, mem_foldl_nameStep]
  simp

/-- The rule names are duplicate-free. -/
theorem ruleNames_nodup (l : List Alert) : (ruleNames l).Nodup :=
  nodup_foldl_nameStep l [] List.nodup_nil

/-- An association list with duplicate-free keys is the table of its own
lookups over its key list. -/
theorem assoc_eq_map_keys (al : List (String × Data)) (dflt : Data) :
    (al.map Prod.fst).Nodup →
      al = (al.map Prod.fst).map (fun n => (n, (alookup al n).getD dflt)) := by
  induction al with
  | nil => intro _; rfl
  | cons p t ih =>
    intro nd
    rw [List.map_cons, List.nodup_cons] at nd
    obtain ⟨nd1, nd2⟩ := nd
    rw [List.map_cons, List.map_cons]
    congr 1
    · rw [alookup, if_pos rfl, Option.getD_some]
    · conv_lhs => rw [ih nd2]
      apply List.map_congr_left
      intro n hn
      have hne : ¬ p.1 = n := fun hh => nd1 (hh ▸ hn)
      rw [alookup, if_neg hne]

/-- Folding `addAlertToRule` appends the alerts and ors the firing status. -/
theorem foldl_addAlertToRule (l : List Alert) :
    ∀ dt : Data,
      l.foldl addAlertToRule dt
        = { dt with
            alerts := dt.alerts ++ l
            status :=
              if l.any (fun a => a.status == AlertFiring) then AlertFiring else dt.status } := by
  induction l with
  | nil => intro dt; cases dt; simp
  | cons a t ih =>
    intro dt
    rw [List.foldl_cons, ih]
    cases dt
    unfold addAlertToRule
    cases ha : a.status == AlertFiring <;> simp [List.any_cons, ha]

/-- Folding `shrinkStep` filters both sets down to the entries every alert
agrees on. -/
theorem foldl_shrinkStep (rest : List Alert) :
    ∀ cl ca : KV,
      rest.foldl (fun s a => shrinkStep a s) (cl, ca)
        = (cl.filter (fun p => rest.all (fun a => kvGetD a.labels p.1 == p.2)),
           ca.filter (fun p => rest.all (fun a => kvGetD a.annotations p.1 == p.2))) := by
  induction rest with
  | nil => intro cl ca; simp
  | cons a t ih =>
    intro cl ca
    rw [List.foldl_cons]
    by_cases h : (cl.isEmpty && ca.isEmpty) = true
    · rw [Bool.and_eq_true] at h
      have hcl : cl = [] := by simpa using h.1
      have hca : ca = [] := by simpa using h.2
      subst hcl; subst hca
      have hstep : shrinkStep a (([] : KV), ([] : KV)) = ([], []) := by
        unfold shrinkStep; simp
      rw [hstep, ih]
      simp
    · have hstep : shrinkStep a (cl, ca)
          = (cl.filter (fun p => kvGetD a.labels p.1 == p.2),
             ca.filter (fun p => kvGetD a.annotations p.1 == p.2)) := by
        unfold shrinkStep; rw [if_neg h]
      rw [hstep, ih]
      congr 1
      · rw [List.filter_filter]
        apply List.filter_congr
        intro p _
        rw [List.all_cons, Bool.and_comm]
      · rw [List.filter_filter]
        apply List.filter_congr
        intro p _
        rw [List.all_cons, Bool.and_comm]

/-- The second `toAlertRule` loop turns each accumulated partition into its
closed-form Notification. -/
theorem finishRule_groupRaw (d : Data) (n : String) (hne : ruleMembers d n ≠ []) :
    finishRule ((ruleMembers d n).foldl addAlertToRule (initRuleData d)) = ruleGroupModel d n := by
  rw [foldl_addAlertToRule]
  unfold ruleGroupModel
  cases hm : ruleMembers d n with
  | nil => exact absurd hm hne
  | cons a0 rest =>
    simp only [initRuleData, List.nil_append]
    unfold finishRule
    simp only [foldl_shrinkStep, commonAcross]

/-- `toAlertRule` equals its closed form: one partition Notification per
distinct alertname, in first-occurrence order. -/
theorem toAlertRule_eq_model (d : Data) :
    toAlertRule d = (ruleNames d.alerts).map (ruleGroupModel d) := by
  have hkeys : (d.alerts.foldl (upsertRule d) []).map Prod.fst = ruleNames d.alerts := by
    simpa [ruleNames] using keys_foldl_upsert d d.alerts []
  have hnd : ((d.alerts.foldl (upsertRule d) []).map Prod.fst).Nodup := by
    rw [hkeys]; exact ruleNames_nodup d.alerts
  have hlook : ∀ n, n ∈ ruleNames d.alerts →
      alookup (d.alerts.foldl (upsertRule d) []) n
        = some ((ruleMembers d n).foldl addAlertToRule (initRuleData d)) := by
    intro n hn
    obtain ⟨a, ha, hname⟩ := (mem_ruleNames d.alerts n).mp hn
    have hmem : a ∈ d.alerts.filter (fun x => alertName x == some n) :=
      List.mem_filter.mpr ⟨ha, by simp [hname]⟩
    have hne : (d.alerts.filter (fun x => alertName x == some n)).isEmpty = false := by
      cases hf : d.alerts.filter (fun x => alertName x == some n) with
      | nil => rw [hf] at hmem; cases hmem
      | cons x xs => rfl
    rw [alookup_foldl_upsert_none d d.alerts [] n rfl, hne]
    simp [ruleMembers]
  rw [toAlertRule]
  conv_lhs => rw [assoc_eq_map_keys (d.alerts.foldl (upsertRule d) []) (initRuleData d) hnd]
  rw [List.map_map, hkeys]
  apply List.map_congr_left
  intro n hn
  have hne : ruleMembers d n ≠ [] := by
    obtain ⟨a, ha, hname⟩ := (mem_ruleNames d.alerts n).mp hn
    exact List.ne_nil_of_mem (List.mem_filter.mpr ⟨ha, by simp [hname]⟩)
  simp only [Function.comp_apply, hlook n hn, Option.getD_some]
  exact finishRule_groupRaw d n hne

/-- Looking up in a filtered duplicate-free map. -/
theorem kvGet_filter (l : KV) (p : String × String → Bool) (k v : String) (nd : NodupKeys l) :
    kvGet (l.filter p) k = some v ↔ kvGet l k = some v ∧ p (k, v) = true := by
  have ndf : NodupKeys (l.filter p) :=
    List.Nodup.sublist (List.Sublist.map Prod.fst (List.filter_sublist l)) nd
  rw [kvGet_eq_some_iff (l.filter p) k v ndf, kvGet_eq_some_iff l k v nd, List.mem_filter]

/-- C4 (amended): by-rule grouping produces exactly one output Notification
per distinct `alertname` value among alerts carrying that label (the
outputs equal the closed-form partition table over the duplicate-free name
list); each output's status is firing exactly when some member alert is
firing and is resolved otherwise; and a key appears in an output's common
labels (resp. annotations), with value `v`, exactly when the partition's
first member alert maps it to `v` and every member alert's value for it —
reading an absent key as the empty string, as the code's map reads do —
is `v`. -/
theorem toAlertRule_characterization (d : Data)
    (hnd : ∀ a ∈ d.alerts, NodupKeys a.labels ∧ NodupKeys a.annotations) :
    (toAlertRule d = (ruleNames d.alerts).map (ruleGroupModel d)
      ∧ (ruleNames d.alerts).Nodup
      ∧ (∀ n, n ∈ ruleNames d.alerts ↔ ∃ a ∈ d.alerts, alertName a = some n))
    ∧ (∀ n, ((ruleGroupModel d n).status = AlertFiring
          ↔ ∃ a ∈ ruleMembers d n, a.status = AlertFiring)
        ∧ ((ruleGroupModel d n).status = AlertFiring
          ∨ (ruleGroupModel d n).status = AlertResolved))
    ∧ (∀ n a0 rest, ruleMembers d n = a0 :: rest →
        (∀ k v, kvGet (ruleGroupModel d n).commonLabels k = some v ↔
          kvGet a0.labels k = some v ∧ ∀ a ∈ ruleMembers d n, kvGetD a.labels k = v)
        ∧ (∀ k v, kvGet (ruleGroupModel d n).commonAnnotations k = some v ↔
          kvGet a0.annotations k = some v ∧ ∀ a ∈ ruleMembers d n, kvGetD a.annotations k = v)) := by
  refine ⟨⟨toAlertRule_eq_model d, ruleNames_nodup d.alerts, mem_ruleNames d.alerts⟩, ?_, ?_⟩
  · intro n
    by_cases hf : (ruleMembers d n).any (fun a => a.status == AlertFiring) = true
    · have hst : (ruleGroupModel d n).status = AlertFiring := by
        unfold ruleGroupModel
        simp only [hf, if_true]
      constructor
      · rw [hst]
        simp only [true_iff]
        obtain ⟨a, ha, hfa⟩ := List.any_eq_true.mp hf
        exact ⟨a, ha, by simpa using hfa⟩
      · exact Or.inl hst
    · have hst : (ruleGroupModel d n).status = AlertResolved := by
        unfold ruleGroupModel
        simp only [hf, if_false]
        rfl
      constructor
      · rw [hst]
        constructor
        · intro h; exact absurd h (by decide)
        · rintro ⟨a, ha, hfa⟩
          exact absurd (List.any_eq_true.mpr ⟨a, ha, by simpa using hfa⟩) hf
      · exact Or.inr hst
  · intro n a0 rest hm
    have ha0 : a0 ∈ ruleMembers d n := by rw [hm]; exact List.mem_cons_self a0 rest
    have ha0d : a0 ∈ d.alerts := (List.mem_filter.mp ha0).1
    have hrestd : ∀ a ∈ rest, a ∈ d.alerts := by
      intro a ha
      have : a ∈ ruleMembers d n := by rw [hm]; exact List.mem_cons_of_mem a0 ha
      exact (List.mem_filter.mp this).1
    constructor
    · intro k v
      have hcl : (ruleGroupModel d n).commonLabels
          = a0.labels.filter (fun p => rest.all (fun a => kvGetD a.labels p.1 == p.2)) := by
        unfold ruleGroupModel
        simp only [hm, commonAcross]
      rw [hcl, kvGet_filter _ _ _ _ (hnd a0 ha0d).1]
      constructor
      · rintro ⟨h1, h2⟩
        refine ⟨h1, ?_⟩
        intro a ha
        rw [hm] at ha
        rcases List.mem_cons.mp ha with rfl | ha2
        · rw [kvGetD, h1, Option.getD_some]
        · have := List.all_eq_true.mp h2 a ha2
          simpa using this
      · rintro ⟨h1, h2⟩
        refine ⟨h1, ?_⟩
        rw [List.all_eq_true]
        intro a ha
        have : kvGetD a.labels k = v := h2 a (by rw [hm]; exact List.mem_cons_of_mem a0 ha)
        simpa using this
    · intro k v
      have hca : (ruleGroupModel d n).commonAnnotations
          = a0.annotations.filter (fun p => rest.all (fun a => kvGetD a.annotations p.1 == p.2)) := by
        unfold ruleGroupModel
        simp only [hm, commonAcross]
      rw [hca, kvGet_filter _ _ _ _ (hnd a0 ha0d).2]
      constructor
      · rintro ⟨h1, h2⟩
        refine ⟨h1, ?_⟩
        intro a ha
        rw [hm] at ha
        rcases List.mem_cons.mp ha with rfl | ha2
        · rw [kvGetD, h1, Option.getD_some]
        · have := List.all_eq_true.mp h2 a ha2
          simpa using this
      · rintro ⟨h1, h2⟩
        refine ⟨h1, ?_⟩
        rw [List.all_eq_true]
        intro a ha
        have : kvGetD a.annotations k = v := h2 a (by rw [hm]; exact List.mem_cons_of_mem a0 ha)
        simpa using this

/-- C4 counterexample: in the batch `c4x` the two rule-`A` alerts are
{alertname:A, sev:""} and {alertname:A}; the grouped output's common labels
contain `sev` (with the empty value) although the second member alert does
not map `sev` at all — Go's zero-value map read conflates a missing key
with the empty-string value, refuting the claim's "iff every member alert
maps that key to the same value". -/
theorem toAlertRule_common_label_counterexample :
    toAlertRule c4x = [ruleGroupModel c4x "A"]
    ∧ kvGet (ruleGroupModel c4x "A").commonLabels "sev" = some ""
    ∧ ¬ ∃ v, ∀ a ∈ ruleMembers c4x "A", kvGet a.labels "sev" = some v := by
  refine ⟨by decide, by decide, ?_⟩
  rintro ⟨v, hv⟩
  have h2 := hv ⟨"resolved", [("alertname", "A")], []⟩ (by decide)
  simp [kvGet] at h2

/-- Witness for C4 (amended) at the four-alert fixture batch. -/
theorem toAlertRule_characterization_witness :
    (∀ a ∈ c4w.alerts, NodupKeys a.labels ∧ NodupKeys a.annotations)
    ∧ toAlertRule c4w = (ruleNames c4w.alerts).map (ruleGroupModel c4w) := by
  refine ⟨by decide, ?_⟩
  exact (toAlertRule_characterization c4w (by decide)).1.1

end Jiralert
